import Mathlib

/-!
# Verification of `experiments/unmanaged/manager.py`

Shallow embedding of the unmanaged online-evolution population manager
(`experiments/unmanaged/manager.py` of the Basvanstein/revolve repository)
and proofs of the specification claims about it.

Modelling conventions:
* Python floats are modelled as rationals (`ℚ`); all arithmetic in the file
  under scrutiny is plain +, -, *, /, comparisons.
* Euclidean distances are compared through their squares: for a nonnegative
  squared distance `sq`, `√sq < d ↔ (0 < d ∧ sq < d^2)` and
  `√sq > d ↔ (d < 0 ∨ d^2 < sq)`.  The source only ever *compares* distances,
  it never uses the distance value itself, so this is an exact embedding.
* Randomness (`random.uniform`, `random.gauss`), the genotype ports
  (`random_initialization`, `standard_crossover`, `standard_mutation`) and the
  simulator port (`insert_robot` returning a robot manager) are modelled as
  oracle parameters: arbitrary streams/functions over which all theorems
  quantify universally.
* Python exceptions are modelled as explicit result constructors.
* Simulator-manager fields (`age`, `last_position`, `last_update`, `dead`, …)
  are snapshots: they are only changed by the manager code itself during a
  phase, matching the single-threaded cooperative execution of the source.
-/

/-! ## Configuration constants (manager.py lines 25-38) -/

def SEED_POPULATION_START : ℕ := 50
def MIN_POP : ℕ := 20
def MAX_POP : ℕ := 100
def Z_SPAWN_DISTANCE : ℚ := 1/2
def MATURE_AGE : ℚ := 30
def MATE_DISTANCE : ℚ := 3/5
def MATING_COOLDOWN : ℚ := 10
def COUPLE_MATING_LIMIT : ℕ := 5
def MATING_INCREASE_RATE : ℚ := 1

/-! ## Data model -/

/-- A genotype: an abstract payload plus the optional id assigned by the
manager (`individual3.genotype.id = self._robot_id_counter`, line 365). -/
structure Genotype where
  gid : Option ℕ
  payload : ℕ
deriving DecidableEq, Repr

/-- Snapshot of a simulator-side robot manager handle: the fields of
`self.manager` that `manager.py` reads or writes (`name`, `last_update`,
`last_mate`, `mated_with`, `age()`, `last_position`, `dead`). -/
structure Mgr where
  name : ℕ
  lastUpdate : ℚ
  lastMate : Option ℚ
  matedWith : List (ℕ × ℕ)
  ageVal : ℚ
  lastPosition : ℚ × ℚ × ℚ
  dead : Bool
deriving DecidableEq, Repr

/-- An `OnlineIndividual` (manager.py lines 67-71): genotype, `max_age`, and
an optional manager handle (None until inserted into the simulator).
`oid` models Python object identity, used by `is` comparisons and by
`list.remove`. -/
structure Ind where
  oid : ℕ
  genotype : Genotype
  maxAge : ℚ
  manager : Option Mgr
deriving DecidableEq, Repr

/-- Embeds `OnlineIndividual.age` (lines 85-89): delegate to the manager if present,
otherwise `0.0`. -/
def Ind.ageQ (i : Ind) : ℚ :=
  match i.manager with
  | some m => m.ageVal
  | none => 0

/-- Embeds `OnlineIndividual.mature` (lines 128-129): `age() > MATURE_AGE`. -/
def Ind.mature (i : Ind) : Bool :=
  decide (MATURE_AGE < i.ageQ)

/-- Squared planar distance: `distance_to` (lines 109-126) with
`planar = True` zeroes the z component of the difference before taking the
norm; we keep the squared norm. -/
def planarDistSq (a b : ℚ × ℚ × ℚ) : ℚ :=
  (a.1 - b.1) ^ 2 + (a.2.1 - b.2.1) ^ 2

/-- Test `√sq < d`, expressed on the squared distance `sq ≥ 0`. -/
def distLtB (sq d : ℚ) : Bool :=
  decide (0 < d) && decide (sq < d ^ 2)

/-- Test `√sq > d`, expressed on the squared distance `sq ≥ 0`. -/
def distGtB (sq d : ℚ) : Bool :=
  decide (d < 0) || decide (d ^ 2 < sq)

/-- Embeds `self.manager.mated_with.get(name, 0)` (line 142): lookup in the
mate-count dictionary, defaulting to 0. -/
def matedCount (l : List (ℕ × ℕ)) (k : ℕ) : ℕ :=
  (l.lookup k).getD 0

/-- The dictionary update of lines 163-166: if the key is present,
increment its (first) entry, otherwise append the key with count 1. -/
def bumpCount (k : ℕ) : List (ℕ × ℕ) → List (ℕ × ℕ)
  | [] => [(k, 1)]
  | (a, c) :: rest =>
      if a = k then (a, c + 1) :: rest else (a, c) :: bumpCount k rest

/-! ## `OnlineIndividual._wants_to_mate` (lines 131-146)

The result is `Option Bool`: `some b` models a normal return of `b`;
`none` models the run-time error Python raises when the other agent has no
manager handle (its `pos()` is `None`, so `my_pos - other_pos` fails, and
`other.manager.name` would fail too).  When `self` has no manager,
`mature` reads age 0 and the gate returns `False` before any such access. -/

/-- The cooldown test of lines 138-139:
`last_mate is not None and (last_update - last_mate) < MATING_COOLDOWN`. -/
def cooldownBlocked (sm : Mgr) : Bool :=
  match sm.lastMate with
  | some lm => decide (sm.lastUpdate - lm < MATING_COOLDOWN)
  | none => false

def wantsToMate (self other : Ind) (mult : ℚ) : Option Bool :=
  if !self.mature then some false
  else
    match self.manager, other.manager with
    | some sm, some om =>
        if distGtB (planarDistSq sm.lastPosition om.lastPosition)
            (MATE_DISTANCE * mult) then some false
        else if cooldownBlocked sm then some false
        else if decide (COUPLE_MATING_LIMIT < matedCount sm.matedWith om.name)
          then some false
        else some true
    | _, _ => none

/-! ## `OnlineIndividual.mate` (lines 148-171) -/

/-- Outcome of a `mate` call.
* `noMate`: the mutual gate failed, `None` is returned (line 159).
* `typeError`: the mutual gate passed; the bookkeeping of lines 162-166 was
  applied, crossover and mutation were performed, and then line 171
  (`return OnlineIndividual(genotype)`) raised
  `TypeError: __init__() missing 1 required positional argument: 'max_age'`,
  because `OnlineIndividual.__init__` (line 68) takes `(genotype, max_age)`.
* `crash`: the gate evaluation itself raised (an agent without a manager). -/
inductive MateOutcome where
  | noMate
  | typeError
  | crash
deriving DecidableEq, Repr

/-- Result of `mate`: the post-call states of both agents plus the outcome.
The crossover/mutation result (external ports) is produced after the
bookkeeping but is discarded by the `TypeError`, so it does not appear. -/
structure MateOut where
  self' : Ind
  other' : Ind
  outcome : MateOutcome
deriving DecidableEq, Repr

/-- Embeds `mate(self, other, mating_distance_multiplier)`.  Python's `and` is
short-circuiting: the second gate is evaluated only if the first returned
`True`.  On mutual success the source mutates only `self.manager`
(`last_mate := last_update`; `mated_with[other.manager.name] += 1`), then
raises `TypeError` at line 171 (see `MateOutcome.typeError`). -/
def mate (self other : Ind) (mult : ℚ) : MateOut :=
  match wantsToMate self other mult with
  | none => ⟨self, other, .crash⟩
  | some false => ⟨self, other, .noMate⟩
  | some true =>
    match wantsToMate other self mult with
    | none => ⟨self, other, .crash⟩
    | some false => ⟨self, other, .noMate⟩
    | some true =>
      match self.manager, other.manager with
      | some sm, some om =>
          let sm' : Mgr :=
            { sm with
              lastMate := some sm.lastUpdate
              matedWith := bumpCount om.name sm.matedWith }
          ⟨{ self with manager := some sm' }, other, .typeError⟩
      | _, _ => ⟨self, other, .crash⟩

/-! ## The spawn placer (lines 248-265) -/

/-- Position of a robot as read by `_is_pos_occupied` via
`robot.distance_to(pos)`: the manager's `last_position`.  Every robot in the
live list has a manager; the default is never exercised by the theorems. -/
def indPos (r : Ind) : ℚ × ℚ × ℚ :=
  match r.manager with
  | some m => m.lastPosition
  | none => (0, 0, 0)

/-- Embeds `Population._is_pos_occupied(pos, distance)` (lines 248-252): true iff
some live robot is strictly closer than `distance` to `pos` (planar). -/
def isPosOccupied (robots : List Ind) (pos : ℚ × ℚ × ℚ) (distance : ℚ) : Bool :=
  robots.any (fun r => distLtB (planarDistSq (indPos r) pos) distance)

/-- Result of `_free_random_spawn_pos`: either a free position or the
`NoPositionFound` exception; `draws` counts the candidate positions that
were drawn from the random stream. -/
inductive SpawnResult where
  | found (pos : ℚ × ℚ × ℚ) (draws : ℕ)
  | noPosition (draws : ℕ)
deriving DecidableEq, Repr

/-- Loop of `_free_random_spawn_pos` (lines 257-265).  `k` is the 0-based
index of the current candidate in the draw stream; `remaining` is the number
of further candidates the try-budget still allows (`n_tries - i` in the
source, where the counter `i` starts at 1 and the test is `i > n_tries`
after incrementing). -/
def spawnAux (robots : List Ind) (distance : ℚ) (draws : ℕ → ℚ × ℚ × ℚ) :
    ℕ → ℕ → SpawnResult
  | k, remaining =>
    if isPosOccupied robots (draws k) distance then
      match remaining with
      | 0 => .noPosition (k + 1)
      | r + 1 => spawnAux robots distance draws (k + 1) r
    else .found (draws k) (k + 1)

/-- Embeds `Population._free_random_spawn_pos(distance, n_tries)` (lines 257-265)
with the candidate stream `draws` in place of `random_spawn_pos()`.
The first candidate is drawn before the loop, so even `n_tries = 0` draws
once; afterwards the loop allows `n_tries - 1` further draws. -/
def freeRandomSpawnPos (robots : List Ind) (distance : ℚ) (nTries : ℕ)
    (draws : ℕ → ℚ × ℚ × ℚ) : SpawnResult :=
  spawnAux robots distance draws 0 (nTries - 1)

/-! ## `Population.death_season` (lines 291-300) and
`_remove_individual` (lines 241-246)

Python's `for individual in self._robots` iterates by an internal index over
the *live* list object; `self._robots.remove(individual)` (line 242) deletes
the first element identical to `individual` and shifts the rest left, while
the iterator's index still advances — so the element immediately after a
removed one is skipped.  The embedding makes that index explicit.
An individual moved to the `removed` component has been detached from the
live list, exported (`individual.export`), and unregistered from the
simulator (`unregister_robot`), in the order of `_remove_individual`. -/

/-- Embeds `individual.manager.dead` (line 297). -/
def deadFlag (i : Ind) : Bool :=
  match i.manager with
  | some m => m.dead
  | none => false

/-- Embeds `self._robots.remove(individual)`: remove the first occurrence
(identity comparison on `oid`). -/
def pyRemove (target : Ind) (l : List Ind) : List Ind :=
  l.eraseP (fun r => r.oid == target.oid)

/-- The scan of `death_season`, with the iterator index `i` explicit.
`fuel` bounds the number of iterations; `robots.length` at entry suffices,
since the index grows by one per step and the list never grows. -/
def deathSeasonAux (fuel : ℕ) (robots : List Ind) (i : ℕ)
    (removed : List Ind) : List Ind × List Ind :=
  match fuel with
  | 0 => (robots, removed)
  | fuel + 1 =>
    match robots[i]? with
    | none => (robots, removed)
    | some ind =>
        if deadFlag ind then
          deathSeasonAux fuel (pyRemove ind robots) (i + 1) (removed ++ [ind])
        else
          deathSeasonAux fuel robots (i + 1) removed

/-- Embeds `Population.death_season` (lines 291-300): returns the live list after
the scan together with the individuals that were removed
(detached + exported + unregistered). -/
def deathSeason (robots : List Ind) : List Ind × List Ind :=
  deathSeasonAux robots.length robots 0 []

/-! ## `Population.adjust_mating_multiplier` (lines 317-335) -/

/-- The mating-controller fields of `Population` (lines 218-222). -/
structure PopCtrl where
  matingMultiplier : ℚ
  matingIncreaseRate : ℚ
  recentChildren : List Ind
  recentChildrenStartTime : ℚ
  recentChildrenDeltaTime : ℚ
deriving DecidableEq, Repr

/-- The controller state constructed by `Population.__init__`
(lines 218-222): multiplier 1.0, rate `MATING_INCREASE_RATE`, empty recent
children, start-time sentinel -1.0, window length 30.0. -/
def popCtrlStart : PopCtrl :=
  { matingMultiplier := 1
    matingIncreaseRate := MATING_INCREASE_RATE
    recentChildren := []
    recentChildrenStartTime := -1
    recentChildrenDeltaTime := 30 }

/-- Embeds `Population.adjust_mating_multiplier(time)` (lines 317-335). -/
def adjustMatingMultiplier (s : PopCtrl) (time : ℚ) : PopCtrl :=
  if s.recentChildrenStartTime < 0 then
    { s with recentChildrenStartTime := time }
  else if s.recentChildrenDeltaTime < time - s.recentChildrenStartTime then
    let n := s.recentChildren.length
    let m :=
      if n < 3 then s.matingMultiplier * s.matingIncreaseRate
      else if 10 < n then s.matingMultiplier / s.matingIncreaseRate
      else s.matingMultiplier
    { s with
      matingMultiplier := m
      recentChildrenStartTime := time
      recentChildren := [] }
  else s

/-- A run of `adjust_mating_multiplier` calls: before each call an arbitrary
batch of children (produced by the intervening mating phases) is appended to
`recent_children`, then the controller is adjusted at the given time. -/
def runAdjusts (s : PopCtrl) (events : List (ℚ × List Ind)) : PopCtrl :=
  events.foldl
    (fun st e =>
      adjustMatingMultiplier
        { st with recentChildren := st.recentChildren ++ e.2 } e.1)
    s

/-! ## `Population.mating_season` (lines 337-380)

Both `for` loops iterate by an internal index over the live list object
`self._robots`, which grows during the scan (line 374 appends), so newly
inserted offspring are visited by the in-progress loops; the embedding keeps
both indices explicit and re-reads the current list at every step.

The call `individual1.mate(individual2, ...)` (line 358) is modelled by the
oracle `mateO`: its outcome depends on external randomness (crossover and
mutation ports) and on the simulator-side state of the two robots; the
theorems below quantify over every oracle, hence over every possible
behaviour of that call (the function itself is verified separately: as
`mate` shows, in this source every mutual-gate success in fact raises the
line-171 `TypeError`, which `except BreakIt` does not catch, ending the
phase — a real run is therefore a truncated prefix of an oracle run with
`mateO` returning `none` at each attempt up to the truncation point, so a
safety property proved for every oracle and every fuel in particular covers
every real run).
Likewise `self._free_random_spawn_pos()` (line 370) is modelled by the
oracle `spawnO` (`some pos` = a position was found, `none` =
`NoPositionFound` was raised; the placer itself is verified separately), and
the robot manager returned by the simulator insertion (line 376 via
`_insert_individual`) by `mgrO`.  All three oracles are indexed by the
number of preceding mate attempts.

Python aliasing: `individual3` is appended to `_recent_children` (line 362)
before its `genotype.id` is assigned (line 365) and before insertion sets
its `manager` (line 376 → line 237), but all three lists hold the *same*
object, so at the end of the phase the entries of `_recent_children` and
`_robots` carry the assigned id and (when placed) the manager.  The
embedding applies those updates before appending, which yields exactly the
end-of-phase state. -/

/-- Instrumentation record for one execution of line 358.
`popCount` is `len(self._robots)` at that moment, `offspring` the result of
the `mate` call (with the id assigned, and the manager attached when it was
placed), `placed` whether `_free_random_spawn_pos` succeeded
(`false` also when `offspring = none`). -/
structure Attempt where
  popCount : ℕ
  offspring : Option Ind
  placed : Bool
deriving DecidableEq, Repr

/-- State carried through `mating_season`: the live list, the
`_recent_children` buffer, the id counter, plus two instrumentation logs —
`inserted` (robots inserted into the simulator this phase) and `log`
(one `Attempt` per execution of line 358). -/
structure MState where
  robots : List Ind
  recent : List Ind
  idCtr : ℕ
  inserted : List Ind
  log : List Attempt
deriving DecidableEq, Repr

/-- Embeds `individual3.genotype.id = n` (line 365). -/
def setGid (n : ℕ) (i : Ind) : Ind :=
  { i with genotype := { i.genotype with gid := some n } }

/-- Embeds `individual.manager = <simulator handle>` (line 237). -/
def setMgr (m : Mgr) (i : Ind) : Ind :=
  { i with manager := some m }

/-- Lines 358-377: one mate attempt between the current pair.
On mate failure (`None`) nothing changes.  On success: append the offspring
to `_recent_children` (line 362), bump the id counter and assign the id
(lines 364-365), then try placement (line 370): on `NoPositionFound` the
offspring is only logged (line 372); otherwise it is appended to the live
list (line 374) and inserted into the simulator (line 376). -/
def doAttempt (mateO : ℕ → Option Ind) (spawnO : ℕ → Option (ℚ × ℚ × ℚ))
    (mgrO : ℕ → Mgr) (st : MState) : MState :=
  let k := st.log.length
  let n := st.robots.length
  match mateO k with
  | none => { st with log := st.log ++ [⟨n, none, false⟩] }
  | some child =>
      let child1 := setGid (st.idCtr + 1) child
      match spawnO k with
      | none =>
          { st with
            idCtr := st.idCtr + 1
            recent := st.recent ++ [child1]
            log := st.log ++ [⟨n, some child1, false⟩] }
      | some _pos =>
          let child2 := setMgr (mgrO k) child1
          { st with
            idCtr := st.idCtr + 1
            recent := st.recent ++ [child2]
            robots := st.robots ++ [child2]
            inserted := st.inserted ++ [child2]
            log := st.log ++ [⟨n, some child2, true⟩] }

/-- The inner loop `for individual2 in self._robots` (lines 352-377) run for
the fixed outer individual `ind1`, starting at iterator index `j`.
Each iteration first re-checks the cap (lines 353-354, raising `BreakIt`),
then skips the pair when both members are the same object (lines 355-356).
The returned flag is `true` iff the loop ended by `BreakIt` (which aborts
the whole phase).  `fuel` bounds the number of iterations; exhausting it
also ends the phase with the state reached so far. -/
def matingInner (mateO : ℕ → Option Ind) (spawnO : ℕ → Option (ℚ × ℚ × ℚ))
    (mgrO : ℕ → Mgr) (ind1 : Ind) : ℕ → ℕ → MState → MState × Bool
  | 0, _, st => (st, true)
  | fuel + 1, j, st =>
    match st.robots[j]? with
    | none => (st, false)
    | some ind2 =>
        if MAX_POP < st.robots.length then (st, true)
        else if ind1.oid = ind2.oid then
          matingInner mateO spawnO mgrO ind1 fuel (j + 1) st
        else
          matingInner mateO spawnO mgrO ind1 fuel (j + 1)
            (doAttempt mateO spawnO mgrO st)

/-- The outer loop `for individual1 in self._robots` (lines 349-377),
starting at iterator index `i`: skip immature individuals (lines 350-351),
otherwise run the inner loop; a `BreakIt` from the inner loop aborts the
phase. -/
def matingOuter (mateO : ℕ → Option Ind) (spawnO : ℕ → Option (ℚ × ℚ × ℚ))
    (mgrO : ℕ → Mgr) : ℕ → ℕ → MState → MState
  | 0, _, st => st
  | fuel + 1, i, st =>
    match st.robots[i]? with
    | none => st
    | some ind1 =>
        if ind1.mature then
          let r := matingInner mateO spawnO mgrO ind1 fuel 0 st
          if r.2 then r.1
          else matingOuter mateO spawnO mgrO fuel (i + 1) r.1
        else matingOuter mateO spawnO mgrO fuel (i + 1) st

/-- Embeds `Population.mating_season` (lines 337-380): reset the instrumentation
logs, check the cap before starting (lines 347-348), then run the pair scan.
`BreakIt` is caught at lines 379-380, so the phase always returns the state
it reached. -/
def matingSeason (mateO : ℕ → Option Ind) (spawnO : ℕ → Option (ℚ × ℚ × ℚ))
    (mgrO : ℕ → Mgr) (fuel : ℕ) (st : MState) : MState :=
  let st0 := { st with inserted := [], log := [] }
  if MAX_POP < st0.robots.length then st0
  else matingOuter mateO spawnO mgrO fuel 0 st0

/-! ## `Population.immigration_season` (lines 302-315)

`newInd n` is the freshly generated individual for id `n`
(`random_initialization` genotype and Gaussian `max_age` are external
randomness), `mgrO k` the simulator handle produced by the insertion of
attempt `k`, and `draws k` the candidate-position stream used by the
`_free_random_spawn_pos()` call of attempt `k`.  The spawn position is
evaluated before the insertion (it is an argument of `_insert_individual`
inside `_generate_insert_random_robot`, line 271), so on `NoPositionFound`
the attempt is discarded before anything is inserted, the exception is
caught at line 313, and the loop re-tests its condition.  `fuel` bounds the
number of loop iterations: the source loop has no bound and can run
forever; `none` models that the budget was exhausted before the loop
exited. -/
def immigrationSeason (minPop : ℕ) (newInd : ℕ → Ind) (mgrO : ℕ → Mgr)
    (draws : ℕ → ℕ → ℚ × ℚ × ℚ) (distance : ℚ) (nTries : ℕ) :
    ℕ → List Ind → ℕ → ℕ → Option (List Ind × ℕ)
  | 0, _, _, _ => none
  | fuel + 1, robots, ctr, attempt =>
    if robots.length < minPop then
      match freeRandomSpawnPos robots distance nTries (draws attempt) with
      | .noPosition _ =>
          immigrationSeason minPop newInd mgrO draws distance nTries
            fuel robots (ctr + 1) (attempt + 1)
      | .found _pos _ =>
          let ind := setMgr (mgrO attempt) (newInd (ctr + 1))
          immigrationSeason minPop newInd mgrO draws distance nTries
            fuel (robots ++ [ind]) (ctr + 1) (attempt + 1)
    else some (robots, ctr)

/-! ## Shared helper lemmas -/

/-- Helper: `adjust_mating_multiplier` never changes the increase rate. -/
theorem adjust_rate_const (s : PopCtrl) (t : ℚ) :
    (adjustMatingMultiplier s t).matingIncreaseRate = s.matingIncreaseRate := by
  unfold adjustMatingMultiplier
  split_ifs <;> rfl

/-- With increase rate 1, one `adjust_mating_multiplier` call preserves the
multiplier. -/
theorem adjust_mult_of_rate_one (s : PopCtrl) (t : ℚ)
    (h : s.matingIncreaseRate = 1) :
    (adjustMatingMultiplier s t).matingMultiplier = s.matingMultiplier := by
  unfold adjustMatingMultiplier
  split_ifs <;> simp [h]

/-- Incrementing a mate-count entry raises the looked-up count by one. -/
theorem matedCount_bump (l : List (ℕ × ℕ)) (k : ℕ) :
    matedCount (bumpCount k l) k = matedCount l k + 1 := by
  induction l with
  | nil => simp [bumpCount, matedCount, List.lookup]
  | cons hd tl ih =>
      obtain ⟨a, c⟩ := hd
      by_cases hak : a = k
      · subst hak
        simp [bumpCount, matedCount, List.lookup]
      · have hbeq : (k == a) = false := by simp [hak, Ne.symm hak]
        simp [bumpCount, hak, matedCount, List.lookup, hbeq] at ih ⊢
        exact ih

/-! ## C5: the feedback controller `adjust_mating_multiplier` -/

/-- C5.  For every controller state whose window has started
(`recent_children_start_time ≥ 0`, the sentinel being negative) and every
`time` with `time - start` exceeding the window length: if the recent-child
count `n` is `< 3` the multiplier is multiplied by the increase rate, if
`n > 10` it is divided by it, otherwise it is unchanged; in every branch the
window start is reset to `time` and `recent_children` is cleared.  On a
first call (window not started) the only change is recording
`recent_children_start_time = time`. -/
theorem adjust_window_spec (s : PopCtrl) (t : ℚ) :
    (s.recentChildrenStartTime < 0 →
      adjustMatingMultiplier s t = { s with recentChildrenStartTime := t }) ∧
    (0 ≤ s.recentChildrenStartTime →
      s.recentChildrenDeltaTime < t - s.recentChildrenStartTime →
      adjustMatingMultiplier s t =
        { s with
          matingMultiplier :=
            if s.recentChildren.length < 3 then
              s.matingMultiplier * s.matingIncreaseRate
            else if 10 < s.recentChildren.length then
              s.matingMultiplier / s.matingIncreaseRate
            else s.matingMultiplier
          recentChildrenStartTime := t
          recentChildren := [] }) := by
  constructor
  · intro h
    unfold adjustMatingMultiplier
    rw [if_pos h]
  · intro h0 h1
    unfold adjustMatingMultiplier
    rw [if_neg (not_lt.2 h0), if_pos h1]

/-- Concrete controller state used by the C5 witness: window started at 0,
no recent children (the `n < 3` multiply branch). -/
def ctrlEx : PopCtrl :=
  { matingMultiplier := 2
    matingIncreaseRate := 3
    recentChildren := []
    recentChildrenStartTime := 0
    recentChildrenDeltaTime := 30 }

/-- Witness for C5: a full window has elapsed (`31 - 0 > 30`), so the branch
equation of `adjust_window_spec` applies at this concrete state. -/
theorem adjust_window_spec_witness :
    adjustMatingMultiplier ctrlEx 31 =
      { ctrlEx with
        matingMultiplier :=
          if ctrlEx.recentChildren.length < 3 then
            ctrlEx.matingMultiplier * ctrlEx.matingIncreaseRate
          else if 10 < ctrlEx.recentChildren.length then
            ctrlEx.matingMultiplier / ctrlEx.matingIncreaseRate
          else ctrlEx.matingMultiplier
        recentChildrenStartTime := 31
        recentChildren := [] } :=
  (adjust_window_spec ctrlEx 31).2 (by norm_num [ctrlEx]) (by norm_num [ctrlEx])

/-! ## C10: with the shipped `MATING_INCREASE_RATE = 1.0` the multiplier is
invariantly 1.0 -/

/-- C10.  With increase rate 1 every single `adjust_mating_multiplier` call
preserves the multiplier, whatever the time and the recent-children buffer;
consequently, starting from the controller state built by
`Population.__init__` with the shipped `MATING_INCREASE_RATE = 1.0`, the
multiplier is still `1.0` after any sequence of adjust calls interleaved
with any child arrivals: the feedback controller never actually expands or
contracts the mating radius. -/
theorem multiplier_invariant_one :
    (∀ (s : PopCtrl) (t : ℚ), s.matingIncreaseRate = 1 →
      (adjustMatingMultiplier s t).matingMultiplier = s.matingMultiplier) ∧
    (∀ events : List (ℚ × List Ind),
      (runAdjusts popCtrlStart events).matingMultiplier = 1) := by
  constructor
  · exact fun s t h => adjust_mult_of_rate_one s t h
  · have key : ∀ (events : List (ℚ × List Ind)) (s : PopCtrl),
        s.matingMultiplier = 1 → s.matingIncreaseRate = 1 →
        (runAdjusts s events).matingMultiplier = 1 := by
      intro events
      induction events with
      | nil => intro s h1 _; exact h1
      | cons e tl ih =>
          intro s h1 h2
          unfold runAdjusts
          rw [List.foldl_cons]
          refine ih _ ?_ ?_
          · rw [adjust_mult_of_rate_one _ _ (by simpa using h2)]
            simpa using h1
          · rw [adjust_rate_const]
            simpa using h2
    intro events
    exact key events popCtrlStart rfl rfl

/-- Witness for C10: one adjust call on a concrete rate-1 state with an
elapsed window and an out-of-band child count leaves the multiplier at its
previous value. -/
theorem multiplier_invariant_one_witness :
    (adjustMatingMultiplier
      { matingMultiplier := 7
        matingIncreaseRate := 1
        recentChildren := []
        recentChildrenStartTime := 0
        recentChildrenDeltaTime := 30 } 31).matingMultiplier = 7 :=
  multiplier_invariant_one.1
    { matingMultiplier := 7
      matingIncreaseRate := 1
      recentChildren := []
      recentChildrenStartTime := 0
      recentChildrenDeltaTime := 30 } 31 rfl

/-! ## Concrete agents for the code-bug demonstrations and witnesses -/

/-- A manager snapshot of a mature robot at the origin spawn position, with
no mating history. -/
def mgrA : Mgr :=
  { name := 1
    lastUpdate := 40
    lastMate := none
    matedWith := []
    ageVal := 31
    lastPosition := (0, 0, 0)
    dead := false }

/-- Same robot state under a different simulator name. -/
def mgrB : Mgr := { mgrA with name := 2 }

/-- A mature, inserted individual. -/
def indA : Ind :=
  { oid := 1, genotype := ⟨none, 0⟩, maxAge := 120, manager := some mgrA }

/-- A second mature, inserted individual at the same position. -/
def indB : Ind :=
  { oid := 2, genotype := ⟨none, 1⟩, maxAge := 120, manager := some mgrB }

/-! ## C1: `mate` on the success path

The claim says `mate` returns a new unmanaged agent exactly when the mutual
gate holds and never throws.  The code cannot do that: on the success path,
line 171 executes `return OnlineIndividual(genotype)`, but
`OnlineIndividual.__init__` (line 68) requires the second positional
argument `max_age`, so the call raises
`TypeError: __init__() missing 1 required positional argument: 'max_age'`.
This contradicts `mate`'s own docstring (lines 149-156: "return: Genotype
generated by the mating process, None if no mating happened").  The theorem
evaluates the embedding at a failing input: two mature agents at the same
position with no mating history, for which both directions of the gate
hold, and the call ends in the `TypeError` outcome instead of returning an
individual. -/

/-- C1 (code bug).  At a concrete input where `wantsToMate` holds in both
directions, `mate` raises `TypeError` (line 171 passes one argument to the
two-argument `OnlineIndividual.__init__` of line 68) instead of returning a
new agent. -/
theorem mate_success_raises_typeerror :
    wantsToMate indA indB 1 = some true ∧
    wantsToMate indB indA 1 = some true ∧
    (mate indA indB 1).outcome = MateOutcome.typeError := by
  norm_num [mate, wantsToMate, Ind.mature, Ind.ageQ, distGtB, planarDistSq,
    cooldownBlocked, matedCount, MATURE_AGE, MATE_DISTANCE, MATING_COOLDOWN,
    COUPLE_MATING_LIMIT, indA, indB, mgrA, mgrB]

/-! ## C2: the death phase is not a snapshot scan

`death_season` (lines 295-299) iterates directly over `self._robots` while
`_remove_individual` (line 242) removes from that same list, so the Python
iterator skips the element that follows every removed one.  With two
adjacent dead robots, the second one survives the phase, contradicting the
claim (and the spec's snapshot requirement, which the docstring's "checks
… the all population" also implies). -/

/-- A dead robot (manager reports `dead == True`). -/
def indD1 : Ind :=
  { oid := 1, genotype := ⟨none, 0⟩, maxAge := 120
    manager := some { mgrA with dead := true } }

/-- A second dead robot. -/
def indD2 : Ind :=
  { oid := 2, genotype := ⟨none, 1⟩, maxAge := 120
    manager := some { mgrB with dead := true } }

/-- C2 (code bug).  Both robots of the live list `[indD1, indD2]` are dead
at the start of the phase, yet `death_season` removes only the first one:
the removal shifts the list while the iterator index advances, the scan
skips `indD2`, and it stays in the live list (neither unregistered nor
exported). -/
theorem death_season_skips_adjacent_dead :
    deadFlag indD1 = true ∧ deadFlag indD2 = true ∧
    deathSeason [indD1, indD2] = ([indD2], [indD1]) := by
  norm_num [deathSeason, deathSeasonAux, deadFlag, pyRemove,
    indD1, indD2, mgrA, mgrB]


/-! ## C6: `_wants_to_mate` is the conjunction of the four gates -/

/-- Helper: `distGtB` (the embedded `distance_to(other) > D`) is false exactly when
`D` is nonnegative and the squared distance is within the squared bound:
`√sq ≤ D ↔ 0 ≤ D ∧ sq ≤ D²`. -/
theorem distGtB_eq_false_iff (sq d : ℚ) :
    distGtB sq d = false ↔ (0 ≤ d ∧ sq ≤ d ^ 2) := by
  simp [distGtB, not_lt, not_or]

/-- The cooldown gate passes exactly when there is no previous mate or the
elapsed time since it is at least the cooldown. -/
theorem cooldownBlocked_eq_false_iff (sm : Mgr) :
    cooldownBlocked sm = false ↔
      (sm.lastMate = none ∨
        ∃ lm, sm.lastMate = some lm ∧
          MATING_COOLDOWN ≤ sm.lastUpdate - lm) := by
  unfold cooldownBlocked
  cases hlm : sm.lastMate with
  | none => simp
  | some lm => simp [not_lt]

/-- Helper: `_wants_to_mate` computes the conjunction of its four Boolean gates. -/
theorem wantsToMate_eq_gates (self other : Ind) (mult : ℚ) (sm om : Mgr)
    (hs : self.manager = some sm) (ho : other.manager = some om) :
    wantsToMate self other mult =
      some (self.mature
        && !distGtB (planarDistSq sm.lastPosition om.lastPosition)
              (MATE_DISTANCE * mult)
        && !cooldownBlocked sm
        && !decide (COUPLE_MATING_LIMIT < matedCount sm.matedWith om.name)) := by
  unfold wantsToMate
  rw [hs, ho]
  cases hm : self.mature <;>
    cases hd : distGtB (planarDistSq sm.lastPosition om.lastPosition)
        (MATE_DISTANCE * mult) <;>
      cases hc : cooldownBlocked sm <;>
        cases hq : decide (COUPLE_MATING_LIMIT < matedCount sm.matedWith om.name) <;>
          simp [hm, hd, hc, hq]

/-- C6.  For every pair of (simulator-inserted) agents and every radius
multiplier, `_wants_to_mate` returns `True` exactly when all four gates
hold: (a) self's age exceeds `MATURE_AGE`; (b) the planar distance to the
other agent is at most `MATE_DISTANCE * multiplier` (stated on squared
distances: the bound is nonnegative and the squared distance is at most its
square); (c) self has no previous mate, or the elapsed time since self's
last mate is at least `MATING_COOLDOWN`; (d) self's recorded mate count
with the other's name is at most `COUPLE_MATING_LIMIT`.  The embedding is a
pure function of the two agent states: evaluation mutates nothing. -/
theorem wantsToMate_four_gates (self other : Ind) (mult : ℚ) (sm om : Mgr)
    (hs : self.manager = some sm) (ho : other.manager = some om) :
    wantsToMate self other mult = some true ↔
      (MATURE_AGE < sm.ageVal ∧
       (0 ≤ MATE_DISTANCE * mult ∧
        planarDistSq sm.lastPosition om.lastPosition ≤
          (MATE_DISTANCE * mult) ^ 2) ∧
       (sm.lastMate = none ∨
        ∃ lm, sm.lastMate = some lm ∧
          MATING_COOLDOWN ≤ sm.lastUpdate - lm) ∧
       matedCount sm.matedWith om.name ≤ COUPLE_MATING_LIMIT) := by
  have hage : self.ageQ = sm.ageVal := by simp [Ind.ageQ, hs]
  rw [wantsToMate_eq_gates self other mult sm om hs ho]
  simp only [Option.some.injEq, Bool.and_eq_true, Bool.not_eq_true']
  rw [distGtB_eq_false_iff, cooldownBlocked_eq_false_iff]
  simp [Ind.mature, hage, not_lt, and_assoc]

/-- Witness for C6 at a concrete managed pair: the gate iff instantiated at
`indA`, `indB`, multiplier 1. -/
theorem wantsToMate_four_gates_witness :
    wantsToMate indA indB 1 = some true ↔
      (MATURE_AGE < mgrA.ageVal ∧
       (0 ≤ MATE_DISTANCE * 1 ∧
        planarDistSq mgrA.lastPosition mgrB.lastPosition ≤
          (MATE_DISTANCE * 1) ^ 2) ∧
       (mgrA.lastMate = none ∨
        ∃ lm, mgrA.lastMate = some lm ∧
          MATING_COOLDOWN ≤ mgrA.lastUpdate - lm) ∧
       matedCount mgrA.matedWith mgrB.name ≤ COUPLE_MATING_LIMIT) :=
  wantsToMate_four_gates indA indB 1 mgrA mgrB rfl rfl

/-! ## C8: on mutual-gate success only the initiator's records change -/

/-- C8.  When the mutual gate passes (both directions of `_wants_to_mate`
return `True`), `mate` records `last_mate = last_update` on the initiator's
manager, increments the initiator's mate-count entry for the other's name
by exactly one, and leaves the other agent (in particular its `last_mate`
and mate counts) unchanged — the bookkeeping of lines 161-166 is one-sided.
(The call then ends in the line-171 `TypeError`; the mutations above have
already been applied to the manager object at that point.) -/
theorem mate_bookkeeping_one_sided (self other : Ind) (mult : ℚ) (sm om : Mgr)
    (hs : self.manager = some sm) (ho : other.manager = some om)
    (h1 : wantsToMate self other mult = some true)
    (h2 : wantsToMate other self mult = some true) :
    (mate self other mult).self' =
      { self with
        manager := some
          { sm with
            lastMate := some sm.lastUpdate
            matedWith := bumpCount om.name sm.matedWith } } ∧
    matedCount (bumpCount om.name sm.matedWith) om.name =
      matedCount sm.matedWith om.name + 1 ∧
    (mate self other mult).other' = other ∧
    (mate self other mult).outcome = MateOutcome.typeError := by
  unfold mate
  rw [h1, h2, hs, ho]
  exact ⟨rfl, matedCount_bump sm.matedWith om.name, rfl, rfl⟩

/-- Witness for C8: the bookkeeping equations at the concrete mutual-gate
success input `indA`, `indB`, multiplier 1. -/
theorem mate_bookkeeping_one_sided_witness :
    (mate indA indB 1).self' =
      { indA with
        manager := some
          { mgrA with
            lastMate := some mgrA.lastUpdate
            matedWith := bumpCount mgrB.name mgrA.matedWith } } ∧
    matedCount (bumpCount mgrB.name mgrA.matedWith) mgrB.name =
      matedCount mgrA.matedWith mgrB.name + 1 ∧
    (mate indA indB 1).other' = indB ∧
    (mate indA indB 1).outcome = MateOutcome.typeError :=
  mate_bookkeeping_one_sided indA indB 1 mgrA mgrB rfl rfl
    (by norm_num [wantsToMate, Ind.mature, Ind.ageQ, distGtB, planarDistSq,
      cooldownBlocked, matedCount, MATURE_AGE, MATE_DISTANCE,
      COUPLE_MATING_LIMIT, indA, indB, mgrA, mgrB])
    (by norm_num [wantsToMate, Ind.mature, Ind.ageQ, distGtB, planarDistSq,
      cooldownBlocked, matedCount, MATURE_AGE, MATE_DISTANCE,
      COUPLE_MATING_LIMIT, indA, indB, mgrA, mgrB])

/-! ## C4: the rejection sampler `_free_random_spawn_pos` -/

/-- If every candidate from index `k` through `k + r` is occupied, the
placer loop entered at index `k` with budget `r` raises after consuming the
candidate at index `k + r`, i.e. after `k + r + 1` draws in total. -/
theorem spawnAux_all_occupied (robots : List Ind) (d : ℚ)
    (draws : ℕ → ℚ × ℚ × ℚ) :
    ∀ r k, (∀ j, k ≤ j → j ≤ k + r → isPosOccupied robots (draws j) d = true) →
      spawnAux robots d draws k r = .noPosition (k + r + 1) := by
  intro r
  induction r with
  | zero =>
      intro k h
      unfold spawnAux
      rw [h k le_rfl (by omega)]
      simp
  | succ r ih =>
      intro k h
      unfold spawnAux
      rw [h k le_rfl (by omega)]
      have hrec := ih (k + 1) (fun j hj1 hj2 => h j (by omega) (by omega))
      simp [hrec]
      omega

/-- If the candidates from index `k` up to (excluding) `k0` are occupied and
the candidate at `k0` is free, with `k0` within the budget, the loop entered
at `k` returns the `k0`-th candidate after `k0 + 1` draws. -/
theorem spawnAux_first_free (robots : List Ind) (d : ℚ)
    (draws : ℕ → ℚ × ℚ × ℚ) :
    ∀ r k k0, k ≤ k0 → k0 ≤ k + r →
      (∀ j, k ≤ j → j < k0 → isPosOccupied robots (draws j) d = true) →
      isPosOccupied robots (draws k0) d = false →
      spawnAux robots d draws k r = .found (draws k0) (k0 + 1) := by
  intro r
  induction r with
  | zero =>
      intro k k0 h1 h2 _hocc hfree
      have hk : k = k0 := by omega
      subst hk
      unfold spawnAux
      rw [hfree]
      simp
  | succ r ih =>
      intro k k0 h1 h2 hocc hfree
      rcases Nat.eq_or_lt_of_le h1 with heq | hlt
      · subst heq
        unfold spawnAux
        rw [hfree]
        simp
      · unfold spawnAux
        rw [hocc k le_rfl hlt]
        have hrec := ih (k + 1) k0 hlt (by omega)
          (fun j hj1 hj2 => hocc j (by omega) hj2) hfree
        simp [hrec]

/-- C4 (amended).  For `maxTries ≥ 1`: if every one of the first `maxTries`
candidate draws lands strictly within `minDistance` of some live agent, the
placer raises `NoPositionFound` exactly after the `maxTries`-th draw, never
after fewer or more; and if some draw among the first `maxTries` is at
distance `≥ minDistance` from every live agent, the first such draw is
returned (after exactly its own number of draws) and no exception is
raised. -/
theorem spawn_placer_try_budget (robots : List Ind) (d : ℚ) (nTries : ℕ)
    (draws : ℕ → ℚ × ℚ × ℚ) (h : 1 ≤ nTries) :
    ((∀ k, k < nTries → isPosOccupied robots (draws k) d = true) →
      freeRandomSpawnPos robots d nTries draws = .noPosition nTries) ∧
    (∀ k0, k0 < nTries → isPosOccupied robots (draws k0) d = false →
      (∀ k, k < k0 → isPosOccupied robots (draws k) d = true) →
      freeRandomSpawnPos robots d nTries draws = .found (draws k0) (k0 + 1)) := by
  constructor
  · intro hall
    unfold freeRandomSpawnPos
    rw [spawnAux_all_occupied robots d draws (nTries - 1) 0
      (fun j _ hj2 => hall j (by omega))]
    congr 1
    omega
  · intro k0 hk0 hfree hocc
    exact spawnAux_first_free robots d draws (nTries - 1) 0 k0 (by omega)
      (by omega) (fun j _ hj2 => hocc j hj2) hfree

/-- Counterexample to C4 as stated (quantifying over *every* `maxTries`):
at `maxTries = 0` the premise "every one of the 0 draws is occupied" is
vacuous, so the claim demands `NoPositionFound` after the 0-th draw; but the
source draws its first candidate before the loop (line 258), so with no
live agents the call returns that draw instead of raising. -/
theorem spawn_zero_tries_still_draws :
    freeRandomSpawnPos [] 1 0 (fun _ => (0, 0, 0)) =
      SpawnResult.found (0, 0, 0) 1 ∧
    freeRandomSpawnPos [] 1 0 (fun _ => (0, 0, 0)) ≠
      SpawnResult.noPosition 0 := by
  have hfound : freeRandomSpawnPos [] 1 0 (fun _ => (0, 0, 0)) =
      SpawnResult.found (0, 0, 0) 1 := by
    unfold freeRandomSpawnPos spawnAux
    norm_num [isPosOccupied]
  refine ⟨hfound, ?_⟩
  rw [hfound]
  exact fun hcontra => SpawnResult.noConfusion hcontra

/-- Witness for the amended C4: with no live agents and budget 1, the first
draw is free and is returned after one draw. -/
theorem spawn_placer_try_budget_witness :
    freeRandomSpawnPos [] 1 1 (fun _ => (0, 0, 0)) =
      SpawnResult.found (0, 0, 0) 1 :=
  (spawn_placer_try_budget [] 1 1 (fun _ => (0, 0, 0)) le_rfl).2 0
    (by omega) (by norm_num [isPosOccupied])
    (fun k hk => absurd hk (Nat.not_lt_zero k))

/-! ## C9: the immigration phase postcondition -/

/-- C9.  Whenever `immigration_season` returns (`some` result, i.e. the
`while` loop exited rather than running forever / out of fuel), the live
count is at least `population_minimum`: the while-condition on the live
count is the only exit, and every `NoPositionFound` raised during an
insertion attempt is caught (line 313), the attempt is discarded without
touching the live list, and the loop continues. -/
theorem immigration_returns_at_minimum (minPop : ℕ) (newInd : ℕ → Ind)
    (mgrO : ℕ → Mgr) (draws : ℕ → ℕ → ℚ × ℚ × ℚ) (d : ℚ) (nTries : ℕ) :
    ∀ (fuel : ℕ) (robots : List Ind) (ctr attempt : ℕ)
      (robots2 : List Ind) (ctr2 : ℕ),
      immigrationSeason minPop newInd mgrO draws d nTries
          fuel robots ctr attempt = some (robots2, ctr2) →
      minPop ≤ robots2.length := by
  intro fuel
  induction fuel with
  | zero =>
      intro robots ctr attempt r2 c2 h
      exact absurd h (by simp [immigrationSeason])
  | succ fuel ih =>
      intro robots ctr attempt r2 c2 h
      unfold immigrationSeason at h
      by_cases hlen : robots.length < minPop
      · rw [if_pos hlen] at h
        cases hsp : freeRandomSpawnPos robots d nTries (draws attempt) with
        | noPosition n =>
            rw [hsp] at h
            exact ih _ _ _ _ _ h
        | found p n =>
            rw [hsp] at h
            exact ih _ _ _ _ _ h
      · rw [if_neg hlen] at h
        have hpair : robots = r2 ∧ ctr = c2 := by
          have := Option.some.inj h
          exact ⟨congrArg Prod.fst this, congrArg Prod.snd this⟩
        rw [← hpair.1]
        exact not_lt.1 hlen

/-- A fresh, not-yet-inserted individual for attempt ids, used by the C9
witness (models the output of `random_initialization` plus `max_age`). -/
def immNew (n : ℕ) : Ind :=
  { oid := 100 + n, genotype := ⟨none, n⟩, maxAge := 120, manager := none }

/-- Witness for C9: from an empty live list with target 1, one successful
placement makes the phase return with one robot, and the theorem yields
`1 ≤ length`. -/
theorem immigration_returns_at_minimum_witness :
    (1 : ℕ) ≤ [setMgr mgrA (immNew 1)].length :=
  immigration_returns_at_minimum 1 immNew (fun _ => mgrA)
    (fun _ _ => (0, 0, 0)) 1 100 2 [] 0 0 [setMgr mgrA (immNew 1)] 1
    (by norm_num [immigrationSeason, freeRandomSpawnPos, spawnAux,
      isPosOccupied])

/-! ## The mating phase: accounting lemmas for C7 -/

/-- The offspring of an attempt when its placement succeeded, `none`
otherwise. -/
def placedOffspring (a : Attempt) : Option Ind :=
  if a.placed then a.offspring else none

/-- Helper: `filterMap` over a cons, phrased with `Option.toList`. -/
theorem filterMap_cons_toList {α β : Type} (f : α → Option β) (a : α)
    (l : List α) :
    List.filterMap f (a :: l) = (f a).toList ++ List.filterMap f l := by
  cases h : f a <;> simp [h]

/-- One mate attempt appends exactly one `Attempt` record to the log, whose
`popCount` is the live count at the call; it extends `_recent_children` by
the offspring (if any), and extends the live list and the inserted log by
the offspring exactly when it was placed. -/
theorem doAttempt_delta (mateO : ℕ → Option Ind)
    (spawnO : ℕ → Option (ℚ × ℚ × ℚ)) (mgrO : ℕ → Mgr) (st : MState) :
    ∃ a : Attempt,
      a.popCount = st.robots.length ∧
      (doAttempt mateO spawnO mgrO st).log = st.log ++ [a] ∧
      (doAttempt mateO spawnO mgrO st).recent =
        st.recent ++ a.offspring.toList ∧
      (doAttempt mateO spawnO mgrO st).robots =
        st.robots ++ (placedOffspring a).toList ∧
      (doAttempt mateO spawnO mgrO st).inserted =
        st.inserted ++ (placedOffspring a).toList := by
  cases hm : mateO st.log.length with
  | none =>
      refine ⟨⟨st.robots.length, none, false⟩, rfl, ?_, ?_, ?_, ?_⟩ <;>
        simp [doAttempt, hm, placedOffspring]
  | some child =>
      cases hsp : spawnO st.log.length with
      | none =>
          refine ⟨⟨st.robots.length, some (setGid (st.idCtr + 1) child),
            false⟩, rfl, ?_, ?_, ?_, ?_⟩ <;>
            simp [doAttempt, hm, hsp, placedOffspring]
      | some p =>
          refine ⟨⟨st.robots.length,
            some (setMgr (mgrO st.log.length) (setGid (st.idCtr + 1) child)),
            true⟩, rfl, ?_, ?_, ?_, ?_⟩ <;>
            simp [doAttempt, hm, hsp, placedOffspring]

/-- Accounting invariant of the inner pair loop: the final state extends the
entry state by a block `Δ` of attempts, every attempt in `Δ` was made at a
live count of at most `MAX_POP`, and the live count stays below any bound
`B ≥ MAX_POP + 1` it started below. -/
theorem matingInner_delta (mateO : ℕ → Option Ind)
    (spawnO : ℕ → Option (ℚ × ℚ × ℚ)) (mgrO : ℕ → Mgr) (ind1 : Ind) :
    ∀ (fuel j : ℕ) (st : MState),
      ∃ Δ : List Attempt,
        (matingInner mateO spawnO mgrO ind1 fuel j st).1.log =
          st.log ++ Δ ∧
        (matingInner mateO spawnO mgrO ind1 fuel j st).1.recent =
          st.recent ++ Δ.filterMap Attempt.offspring ∧
        (matingInner mateO spawnO mgrO ind1 fuel j st).1.robots =
          st.robots ++ Δ.filterMap placedOffspring ∧
        (matingInner mateO spawnO mgrO ind1 fuel j st).1.inserted =
          st.inserted ++ Δ.filterMap placedOffspring ∧
        (∀ a ∈ Δ, a.popCount ≤ MAX_POP) ∧
        (∀ B, MAX_POP + 1 ≤ B → st.robots.length ≤ B →
          (matingInner mateO spawnO mgrO ind1 fuel j st).1.robots.length ≤ B) := by
  intro fuel
  induction fuel with
  | zero =>
      intro j st
      exact ⟨[], by simp [matingInner], by simp [matingInner],
        by simp [matingInner], by simp [matingInner], by simp,
        fun B _ h => by simpa [matingInner] using h⟩
  | succ fuel ih =>
      intro j st
      cases hj : st.robots[j]? with
      | none =>
          refine ⟨[], ?_, ?_, ?_, ?_, by simp, fun B _ h => ?_⟩ <;>
            simp [matingInner, hj]
          exact h
      | some ind2 =>
          by_cases hcap : MAX_POP < st.robots.length
          · refine ⟨[], ?_, ?_, ?_, ?_, by simp, fun B _ h => ?_⟩ <;>
              simp [matingInner, hj, hcap]
            exact h
          · by_cases hoid : ind1.oid = ind2.oid
            · have heq : matingInner mateO spawnO mgrO ind1 (fuel + 1) j st =
                  matingInner mateO spawnO mgrO ind1 fuel (j + 1) st := by
                simp [matingInner, hj, hcap, hoid]
              rw [heq]
              exact ih (j + 1) st
            · have heq : matingInner mateO spawnO mgrO ind1 (fuel + 1) j st =
                  matingInner mateO spawnO mgrO ind1 fuel (j + 1)
                    (doAttempt mateO spawnO mgrO st) := by
                simp [matingInner, hj, hcap, hoid]
              rw [heq]
              obtain ⟨a, hapc, halog, harec, harob, hains⟩ :=
                doAttempt_delta mateO spawnO mgrO st
              obtain ⟨Δ, hlog, hrec, hrob, hins, hbound, hlen⟩ :=
                ih (j + 1) (doAttempt mateO spawnO mgrO st)
              refine ⟨a :: Δ, ?_, ?_, ?_, ?_, ?_, ?_⟩
              · rw [hlog, halog]
                simp
              · rw [hrec, harec, filterMap_cons_toList]
                simp
              · rw [hrob, harob, filterMap_cons_toList]
                simp
              · rw [hins, hains, filterMap_cons_toList]
                simp
              · intro x hx
                rcases List.mem_cons.1 hx with rfl | hx2
                · rw [hapc]
                  exact not_lt.1 hcap
                · exact hbound x hx2
              · intro B hB hst
                refine hlen B hB ?_
                rw [harob]
                have : (placedOffspring a).toList.length ≤ 1 := by
                  cases h : placedOffspring a <;> simp [h]
                have hlen2 : st.robots.length + (placedOffspring a).toList.length ≤
                    MAX_POP + 1 := by
                  have := not_lt.1 hcap
                  simp only [List.length_append] at *
                  omega
                simp only [List.length_append]
                omega

/-- Accounting invariant of the outer loop: same statement as for the inner
loop, over the whole remaining scan. -/
theorem matingOuter_delta (mateO : ℕ → Option Ind)
    (spawnO : ℕ → Option (ℚ × ℚ × ℚ)) (mgrO : ℕ → Mgr) :
    ∀ (fuel i : ℕ) (st : MState),
      ∃ Δ : List Attempt,
        (matingOuter mateO spawnO mgrO fuel i st).log = st.log ++ Δ ∧
        (matingOuter mateO spawnO mgrO fuel i st).recent =
          st.recent ++ Δ.filterMap Attempt.offspring ∧
        (matingOuter mateO spawnO mgrO fuel i st).robots =
          st.robots ++ Δ.filterMap placedOffspring ∧
        (matingOuter mateO spawnO mgrO fuel i st).inserted =
          st.inserted ++ Δ.filterMap placedOffspring ∧
        (∀ a ∈ Δ, a.popCount ≤ MAX_POP) ∧
        (∀ B, MAX_POP + 1 ≤ B → st.robots.length ≤ B →
          (matingOuter mateO spawnO mgrO fuel i st).robots.length ≤ B) := by
  intro fuel
  induction fuel with
  | zero =>
      intro i st
      exact ⟨[], by simp [matingOuter], by simp [matingOuter],
        by simp [matingOuter], by simp [matingOuter], by simp,
        fun B _ h => by simpa [matingOuter] using h⟩
  | succ fuel ih =>
      intro i st
      cases hi : st.robots[i]? with
      | none =>
          refine ⟨[], ?_, ?_, ?_, ?_, by simp, fun B _ h => ?_⟩ <;>
            simp [matingOuter, hi]
          exact h
      | some ind1 =>
          by_cases hmat : ind1.mature = true
          · obtain ⟨Δ1, h1log, h1rec, h1rob, h1ins, h1bound, h1len⟩ :=
              matingInner_delta mateO spawnO mgrO ind1 fuel 0 st
            by_cases habort :
                (matingInner mateO spawnO mgrO ind1 fuel 0 st).2 = true
            · have heq : matingOuter mateO spawnO mgrO (fuel + 1) i st =
                  (matingInner mateO spawnO mgrO ind1 fuel 0 st).1 := by
                simp [matingOuter, hi, hmat, habort]
              rw [heq]
              exact ⟨Δ1, h1log, h1rec, h1rob, h1ins, h1bound, h1len⟩
            · have heq : matingOuter mateO spawnO mgrO (fuel + 1) i st =
                  matingOuter mateO spawnO mgrO fuel (i + 1)
                    (matingInner mateO spawnO mgrO ind1 fuel 0 st).1 := by
                simp [matingOuter, hi, hmat, habort]
              rw [heq]
              obtain ⟨Δ2, h2log, h2rec, h2rob, h2ins, h2bound, h2len⟩ :=
                ih (i + 1) (matingInner mateO spawnO mgrO ind1 fuel 0 st).1
              refine ⟨Δ1 ++ Δ2, ?_, ?_, ?_, ?_, ?_, ?_⟩
              · rw [h2log, h1log, List.append_assoc]
              · rw [h2rec, h1rec, List.filterMap_append, List.append_assoc]
              · rw [h2rob, h1rob, List.filterMap_append, List.append_assoc]
              · rw [h2ins, h1ins, List.filterMap_append, List.append_assoc]
              · intro x hx
                rcases List.mem_append.1 hx with hx1 | hx2
                · exact h1bound x hx1
                · exact h2bound x hx2
              · intro B hB hst
                exact h2len B hB (h1len B hB hst)
          · have heq : matingOuter mateO spawnO mgrO (fuel + 1) i st =
                matingOuter mateO spawnO mgrO fuel (i + 1) st := by
              simp [matingOuter, hi, hmat]
            rw [heq]
            exact ih (i + 1) st

/-- Accounting invariant of the whole mating phase, from the phase entry
state (whose instrumentation logs are reset). -/
theorem matingSeason_delta (mateO : ℕ → Option Ind)
    (spawnO : ℕ → Option (ℚ × ℚ × ℚ)) (mgrO : ℕ → Mgr) (fuel : ℕ)
    (st : MState) :
    ∃ Δ : List Attempt,
      (matingSeason mateO spawnO mgrO fuel st).log = Δ ∧
      (matingSeason mateO spawnO mgrO fuel st).recent =
        st.recent ++ Δ.filterMap Attempt.offspring ∧
      (matingSeason mateO spawnO mgrO fuel st).robots =
        st.robots ++ Δ.filterMap placedOffspring ∧
      (matingSeason mateO spawnO mgrO fuel st).inserted =
        Δ.filterMap placedOffspring ∧
      (∀ a ∈ Δ, a.popCount ≤ MAX_POP) ∧
      (matingSeason mateO spawnO mgrO fuel st).robots.length ≤
        max st.robots.length (MAX_POP + 1) := by
  unfold matingSeason
  by_cases hcap : MAX_POP <
      ({ st with inserted := [], log := [] } : MState).robots.length
  · rw [if_pos hcap]
    exact ⟨[], rfl, by simp, by simp, by simp, by simp,
      Nat.le_max_left _ _⟩
  · rw [if_neg hcap]
    obtain ⟨Δ, hlog, hrec, hrob, hins, hbound, hlen⟩ :=
      matingOuter_delta mateO spawnO mgrO fuel 0
        { st with inserted := [], log := [] }
    refine ⟨Δ, ?_, ?_, ?_, ?_, hbound, ?_⟩
    · simpa using hlog
    · simpa using hrec
    · simpa using hrob
    · simpa using hins
    · refine hlen (max st.robots.length (MAX_POP + 1)) (Nat.le_max_right _ _)
        ?_
      simp only []
      exact Nat.le_max_left st.robots.length (MAX_POP + 1)

/-! ## C7: the mating phase respects the population cap -/

/-- C7.  For every starting state, every oracle behaviour of the external
calls and every fuel budget: the cap is checked before the phase starts
(line 347) and at the top of every inner iteration (line 353) — in
particular between any successful insertion and the next pair — raising
`BreakIt` and discarding all remaining pair iteration as soon as the live
count exceeds `MAX_POP`.  Hence every execution of the mate attempt
(line 358) happens at a live count of at most `MAX_POP`, and the live list
never grows beyond `max(initial size, MAX_POP + 1)` — the soft upper
bound. -/
theorem mating_cap_never_exceeded (mateO : ℕ → Option Ind)
    (spawnO : ℕ → Option (ℚ × ℚ × ℚ)) (mgrO : ℕ → Mgr) (fuel : ℕ)
    (st : MState) :
    ((matingSeason mateO spawnO mgrO fuel st).log.all
      (fun a => decide (a.popCount ≤ MAX_POP))) = true ∧
    (matingSeason mateO spawnO mgrO fuel st).robots.length ≤
      max st.robots.length (MAX_POP + 1) := by
  obtain ⟨Δ, hlog, _, _, _, hbound, hlen⟩ :=
    matingSeason_delta mateO spawnO mgrO fuel st
  refine ⟨?_, hlen⟩
  rw [hlog, List.all_eq_true]
  intro a ha
  exact decide_eq_true (hbound a ha)
